import Mathlib

/-!
# Verification of the boa object model and built-in construction protocol

Shallow embedding of the excerpt's five source files:

* `src/boa/src/object/mod.rs` — `Object`, `ObjectData`, the native-object
  type erasure (`is`/`downcast_ref`), `ObjectBuilder` and `ConstructorBuilder`;
* `src/boa/src/builtins/mod.rs` — the second (older) `ObjectBuilder` /
  `ConstructorBuilder` pair, the `BuiltIn` trait and the aggregate `init`;
* `src/boa/src/builtins/error/range.rs`, `reference.rs`, `syntax.rs` —
  the error built-ins.

Machinery the excerpt calls but does not contain (the property/attribute
bitflags, `GcObject`, `Value`, the context's standard objects, the
engine-level field accessors) is modelled from the spec; every such
definition carries a doc comment starting `Modelled from the spec:`.

Mutable `GcObject` handles are embedded as indices into an explicit heap
(a list of objects); every mutating operation passes the heap explicitly.
-/

set_option maxRecDepth 10000

namespace Boa

/-- Modelled from the spec: the `Attribute` bit set (spec section 3) reduced to
its three semantic flags writable / enumerable / configurable.  The source
combines the flags `WRITABLE`, `ENUMERABLE`, `CONFIGURABLE`,
`NON_ENUMERABLE`, `READONLY` and `PERMANENT` (= non-writable +
non-configurable); each flag combination the excerpt actually uses is given
below as a named constant carrying the semantics the spec ascribes to it. -/
structure Attribute where
  writable : Bool
  enumerable : Bool
  configurable : Bool
deriving DecidableEq, Repr

/-- `Attribute::READONLY | Attribute::NON_ENUMERABLE | Attribute::PERMANENT`:
non-writable, non-enumerable, non-configurable (spec section 3: PERMANENT =
non-writable + non-configurable). -/
def Attribute.READONLY_NON_ENUMERABLE_PERMANENT : Attribute :=
  ⟨false, false, false⟩

/-- `Attribute::WRITABLE | Attribute::NON_ENUMERABLE | Attribute::CONFIGURABLE`:
writable, non-enumerable, configurable. -/
def Attribute.WRITABLE_NON_ENUMERABLE_CONFIGURABLE : Attribute :=
  ⟨true, false, true⟩

/-- Modelled from the spec: `Attribute::all()`.  The bitflags definition is not
in the excerpt; spec section 4.6 describes the value bound through it (the
`BuiltIn::attribute` default) as "writable, non-enumerable, configurable". -/
def Attribute.all : Attribute :=
  ⟨true, false, true⟩

/-- Modelled from the spec: the attribute of a property created by an
engine-level field assignment (`Value::set_field`); plain assignment yields a
fully unrestricted data property. -/
def Attribute.assignDefault : Attribute :=
  ⟨true, true, true⟩

/-- A property attribute is *permanent* when it is non-writable and
non-configurable (spec section 3). -/
def Attribute.permanent (a : Attribute) : Prop :=
  a.writable = false ∧ a.configurable = false

/-- Modelled from the spec: a JavaScript `Value` (the excerpt's `Value` enum is
not included); only the variants the excerpt's code paths touch are embedded.
Objects are referenced through numeric heap handles. -/
inductive Value where
  | null
  | undefined
  | boolean (b : Bool)
  | integer (n : Int)
  | string (s : String)
  | symbol (id : Nat)
  | object (handle : Nat)
deriving DecidableEq, Repr

/-- Decidable equality for the `Result`/`Except` return convention. -/
instance {ε α : Type} [DecidableEq ε] [DecidableEq α] : DecidableEq (Except ε α)
  | .ok a, .ok b =>
    if h : a = b then .isTrue (by rw [h]) else .isFalse (fun hh => h (by cases hh; rfl))
  | .ok _, .error _ => .isFalse (fun hh => Except.noConfusion hh)
  | .error _, .ok _ => .isFalse (fun hh => Except.noConfusion hh)
  | .error a, .error b =>
    if h : a = b then .isTrue (by rw [h]) else .isFalse (fun hh => h (by cases hh; rfl))

/-- `Value::is_null`. Modelled from the spec (used by `set_prototype_instance`'s
and `inherit`'s assertions). -/
def Value.is_null : Value → Bool
  | .null => true
  | _ => false

/-- `Value::is_object`. Modelled from the spec. -/
def Value.is_object : Value → Bool
  | .object _ => true
  | _ => false

/-- Modelled from the spec: `PropertyKey` — string name, symbol, or
non-negative integer index (spec section 3). -/
inductive PropertyKey where
  | string (s : String)
  | symbol (id : Nat)
  | index (i : Nat)
deriving DecidableEq, Repr

/-- Modelled from the spec: `Property` — a data descriptor
`(value, Attribute)` (spec section 3). -/
structure Property where
  value : Value
  attr : Attribute
deriving DecidableEq, Repr

/-- `Property::data_descriptor(value, attribute)`. Modelled from the spec:
creates a data descriptor from a value and an attribute. -/
def Property.data_descriptor (value : Value) (attr : Attribute) : Property :=
  ⟨value, attr⟩

/-- The native function pointers the excerpt installs.  `other` stands for any
native function outside the excerpt. -/
inductive NativeFn where
  | rangeErrorConstructorFn
  | rangeErrorToStringFn
  | referenceErrorConstructorFn
  | referenceErrorToStringFn
  | syntaxErrorConstructorFn
  | syntaxErrorToStringFn
  | errorConstructorFn
  | errorToStringFn
  | typeErrorConstructorFn
  | typeErrorToStringFn
  | other (id : Nat)
deriving DecidableEq, Repr

/-- `FunctionFlags` (callable / constructable capability flags; the flags type
itself lives in `builtins/function`, modelled from spec section 4.5). -/
structure FunctionFlags where
  callable : Bool
  constructable : Bool
deriving DecidableEq, Repr

/-- `FunctionFlags::CALLABLE`. -/
def FunctionFlags.CALLABLE : FunctionFlags := ⟨true, false⟩

/-- `FunctionFlags::from_parameters(callable, constructable)`. Modelled from
the spec (section 4.5: `callable`/`constructable` configure the constructor's
call/construct capability flags). -/
def FunctionFlags.from_parameters (callable constructable : Bool) : FunctionFlags :=
  ⟨callable, constructable⟩

/-- The `Function` callable descriptor; the excerpt only ever builds the
`Function::BuiltIn(native, flags)` form. -/
inductive Function where
  | builtIn (f : NativeFn) (flags : FunctionFlags)
deriving DecidableEq, Repr

/-- Modelled from the spec: a type-erased native payload
(spec section 3 "NativeObject payload", section 9 design note: an interface
with a type identity token).  `ty` is the exact dynamic type's identity
token; `val` stands for the payload's content. -/
structure NativePayload where
  ty : Nat
  val : Nat
deriving DecidableEq, Repr

/-- `ObjectData` — the tagged internal-data slot
(`src/boa/src/object/mod.rs` lines 69-85).  Payload types not needed by any
claim (`RegExp`, `Date`, `OrderedMap`, `f64`, `RcBigInt`, `RcSymbol`) are
embedded abstractly. -/
inductive ObjectData where
  | array
  | map (entries : List (Value × Value))
  | regexp (id : Nat)
  | bigint (n : Int)
  | boolean (b : Bool)
  | function (f : Function)
  | string (s : String)
  | number (bits : Nat)
  | symbol (id : Nat)
  | error
  | ordinary
  | date (id : Nat)
  | global
  | nativeObject (payload : NativePayload)
deriving DecidableEq, Repr

/-- Association-list lookup (the embedding of the property hash maps: the
claims only observe per-key lookups, for which an association list with
replace-on-insert is an exact model of a hash map). -/
def assocFind {α β : Type} [DecidableEq α] : List (α × β) → α → Option β
  | [], _ => none
  | (k, v) :: rest, key => if k = key then some v else assocFind rest key

/-- Association-list insert: overwrites the entry in place when the key is
present, appends otherwise (spec section 4.1: `insert` overwrites any existing
entry regardless of its previous attributes). -/
def assocInsert {α β : Type} [DecidableEq α] : List (α × β) → α → β → List (α × β)
  | [], key, v => [(key, v)]
  | (k, w) :: rest, key, v =>
    if k = key then (key, v) :: rest else (k, w) :: assocInsert rest key v

/-- Association-list removal of a key (used by deletion). -/
def assocRemove {α β : Type} [DecidableEq α] : List (α × β) → α → List (α × β)
  | [], _ => []
  | (k, w) :: rest, key =>
    if k = key then rest else (k, w) :: assocRemove rest key

/-- `Object` (`src/boa/src/object/mod.rs` lines 53-66): internal data slot,
three property maps, prototype link, extensibility flag. -/
structure Object where
  data : ObjectData
  indexed_properties : List (Nat × Property)
  string_properties : List (String × Property)
  symbol_properties : List (Nat × Property)
  prototype : Value
  extensible : Bool
deriving DecidableEq, Repr

/-- `Object::default()` (lines 112-125): Ordinary data, empty maps, null
prototype, extensible. -/
def Object.default : Object :=
  { data := .ordinary
    indexed_properties := []
    string_properties := []
    symbol_properties := []
    prototype := .null
    extensible := true }

/-- `Object::function(function, prototype)` (lines 134-145). -/
def Object.function (function : Function) (prototype : Value) : Object :=
  { data := .function function
    indexed_properties := []
    string_properties := []
    symbol_properties := []
    prototype := prototype
    extensible := true }

/-- `Object::create(proto)` (lines 154-158): default object with the given
prototype. -/
def Object.create (proto : Value) : Object :=
  { Object.default with prototype := proto }

/-- `Object::native_object(value)` (lines 212-224). -/
def Object.native_object (payload : NativePayload) : Object :=
  { data := .nativeObject payload
    indexed_properties := []
    string_properties := []
    symbol_properties := []
    prototype := .null
    extensible := true }

/-- `Object::set_prototype_instance(prototype)` (lines 406-410).  The source
asserts `prototype.is_null() || prototype.is_object()` and then stores it;
within the excerpt every call site passes a null or object value, so the
assertion's panic path is never taken and the embedding stores the value. -/
def Object.set_prototype_instance (o : Object) (prototype : Value) : Object :=
  { o with prototype := prototype }

/-- Modelled from the spec: own-property insertion dispatched on the key kind
(`insert` lives in the excerpt's `internal_methods` module, which is not
included; spec section 4.1: overwrites any existing entry regardless of its
previous attributes, each key kind in its own map). -/
def Object.insert (o : Object) (key : PropertyKey) (property : Property) : Object :=
  match key with
  | .string s => { o with string_properties := assocInsert o.string_properties s property }
  | .symbol id => { o with symbol_properties := assocInsert o.symbol_properties id property }
  | .index i => { o with indexed_properties := assocInsert o.indexed_properties i property }

/-- Modelled from the spec: `insert_property(key, value, attribute)` =
`insert(key, Property(value, attribute))` (spec section 4.1). -/
def Object.insert_property (o : Object) (key : PropertyKey) (value : Value)
    (attr : Attribute) : Object :=
  o.insert key (Property.data_descriptor value attr)

/-- Modelled from the spec: own-property lookup, own entries only
(spec section 4.1: `get(key)` returns the own property only). -/
def Object.get_own (o : Object) (key : PropertyKey) : Option Property :=
  match key with
  | .string s => assocFind o.string_properties s
  | .symbol id => assocFind o.symbol_properties id
  | .index i => assocFind o.indexed_properties i

/-- Modelled from the spec: deletion (spec section 4.1: succeeds only if the
stored attribute includes `CONFIGURABLE`, otherwise fails without mutating
the map).  `none` is the "not configurable" failure signal. -/
def Object.delete (o : Object) (key : PropertyKey) : Option Object :=
  match o.get_own key with
  | none => some o
  | some p =>
    if p.attr.configurable then
      some (match key with
        | .string s => { o with string_properties := assocRemove o.string_properties s }
        | .symbol id => { o with symbol_properties := assocRemove o.symbol_properties id }
        | .index i => { o with indexed_properties := assocRemove o.indexed_properties i })
    else
      none

/-- `Object::is_error` (lines 327-330). -/
def Object.is_error (o : Object) : Bool :=
  match o.data with
  | .error => true
  | _ => false

/-- `Object::is_native_object` (lines 421-424). -/
def Object.is_native_object (o : Object) : Bool :=
  match o.data with
  | .nativeObject _ => true
  | _ => false

/-- `Object::is::<T>` (lines 427-436): true iff the data is the
`NativeObject` variant and the erased payload's exact type is `T`
(`as_any().is::<T>()` embedded as identity-token equality, spec section 9
design note). -/
def Object.is (o : Object) (T : Nat) : Bool :=
  match o.data with
  | .nativeObject payload => payload.ty == T
  | _ => false

/-- `Object::downcast_ref::<T>` (lines 440-449): the payload when the data is
the `NativeObject` variant and its exact type is `T`, absent otherwise. -/
def Object.downcast_ref (o : Object) (T : Nat) : Option Nat :=
  match o.data with
  | .nativeObject payload => if payload.ty = T then some payload.val else none
  | _ => none

/-- `Object::downcast_mut::<T>` (lines 453-464): same exact-type test as
`downcast_ref` (the mutable borrow is irrelevant in the embedding). -/
def Object.downcast_mut (o : Object) (T : Nat) : Option Nat :=
  match o.data with
  | .nativeObject payload => if payload.ty = T then some payload.val else none
  | _ => none

/-- Modelled from the spec: the managed-handle heap.  A `GcObject` handle is
an index into this list (spec section 3 "Managed Object Handle", section 9
design note: an arena of objects addressed by stable indices); cloning a
handle clones the index, so handle equality is object identity. -/
structure Heap where
  objs : List Object
deriving DecidableEq, Repr

/-- Dereference a handle. -/
def Heap.get (H : Heap) (h : Nat) : Option Object :=
  H.objs[h]?

/-- `borrow_mut` followed by a mutation: replace the object behind a handle by
`f` of it; a dangling handle (never produced by the embedded code) leaves the
heap unchanged. -/
def Heap.update (H : Heap) (h : Nat) (f : Object → Object) : Heap :=
  match H.objs[h]? with
  | some o => ⟨H.objs.set h (f o)⟩
  | none => H

/-- `GcObject::new(object)`: allocate a fresh handle. -/
def Heap.alloc (H : Heap) (o : Object) : Heap × Nat :=
  (⟨H.objs ++ [o]⟩, H.objs.length)

/-- Modelled from the spec: `Value::set_field(key, value)` on an object value
creates or overwrites the own data property (engine-level assignment layered
over section 4.1's `insert`); on a non-object value it is a no-op. -/
def Value.set_field (H : Heap) (v : Value) (key : String) (val : Value) : Heap :=
  match v with
  | .object h => H.update h (fun o => o.insert_property (.string key) val Attribute.assignDefault)
  | _ => H

/-- Modelled from the spec: `Value::set_data(data)` — the bare internal-slot
reassignment of spec section 4.2; a no-op on non-object values. -/
def Value.set_data (H : Heap) (v : Value) (data : ObjectData) : Heap :=
  match v with
  | .object h => H.update h (fun o => { o with data := data })
  | _ => H

/-- Prototype-chain property read with explicit fuel (the chain can in
principle be cyclic; fuel bounded by the heap size reaches every acyclic
chain's end). -/
def getFieldAux (H : Heap) : Nat → Nat → String → Value
  | 0, _, _ => .undefined
  | fuel + 1, h, key =>
    match H.get h with
    | none => .undefined
    | some o =>
      match assocFind o.string_properties key with
      | some p => p.value
      | none =>
        match o.prototype with
        | .object h2 => getFieldAux H fuel h2 key
        | _ => .undefined

/-- Modelled from the spec: `Value::get_field(key)` — own property if present,
otherwise the prototype chain is consulted (spec section 4.1: chain walking is
the caller layer above `get`; glossary "prototype chain"); `undefined` when
the chain ends. -/
def Value.get_field (H : Heap) (v : Value) (key : String) : Value :=
  match v with
  | .object h => getFieldAux H (H.objs.length + 1) h key
  | _ => .undefined

/-- Modelled from the spec: `Value::to_string(ctx)` — the string coercion
routine (out of scope per spec section 1; the error channel of the result is
a thrown value, section 7).  Primitives coerce to their text; a symbol value
cannot be coerced and reports a thrown type error through the error channel;
an object coerces through its (out-of-scope) primitive conversion, embedded
as the host's default object text. -/
def Value.to_string_coerce : Value → Except Value String
  | .null => .ok "null"
  | .undefined => .ok "undefined"
  | .boolean b => .ok (if b then "true" else "false")
  | .integer n => .ok (toString n)
  | .string s => .ok s
  | .symbol _ => .error (.string "TypeError: can not convert symbol to string")
  | .object _ => .ok "[object Object]"

/-- `StandardConstructor` — a pre-allocated (constructor, prototype) handle
pair (spec section 3; the type lives in the excluded `context` module). -/
structure StandardConstructor where
  constructor : Nat
  prototype : Nat
deriving DecidableEq, Repr

/-- Modelled from the spec: `context.standard_objects()` (spec section 6) —
one pre-allocated pair per built-in class the excerpt touches. -/
structure StandardObjects where
  function_object : StandardConstructor
  object_object : StandardConstructor
  error_object : StandardConstructor
  range_error_object : StandardConstructor
  reference_error_object : StandardConstructor
  syntax_error_object : StandardConstructor
  type_error_object : StandardConstructor
deriving DecidableEq, Repr

/-- Modelled from the spec: the execution `Context` — the heap, the standard
object pairs (stable identity across initialization, spec section 6) and the
global object's handle. -/
structure Context where
  heap : Heap
  standard_objects : StandardObjects
  global_object : Nat
deriving DecidableEq, Repr

/-- Modelled from the spec: `context.construct_object()` — allocates an empty
extensible object with the default object prototype (spec section 4.4). -/
def Context.construct_object (cx : Context) : Context × Nat :=
  let (H, h) := cx.heap.alloc
    (Object.create (.object cx.standard_objects.object_object.prototype))
  ({ cx with heap := H }, h)

/-- Own string-keyed property of the object behind a handle (observation
helper for the theorems below). -/
def Context.ownProp (cx : Context) (h : Nat) (key : String) : Option Property :=
  (cx.heap.get h).bind (fun o => assocFind o.string_properties key)

/-- Value of an own string-keyed property (observation helper). -/
def Context.ownPropValue (cx : Context) (h : Nat) (key : String) : Option Value :=
  (cx.ownProp h key).map Property.value

/-- Attribute of an own string-keyed property (observation helper). -/
def Context.ownPropAttr (cx : Context) (h : Nat) (key : String) : Option Attribute :=
  (cx.ownProp h key).map Property.attr

/-- The prototype link of the object behind a handle (observation helper:
`Object.getPrototypeOf`). -/
def Context.protoOf (cx : Context) (h : Nat) : Option Value :=
  (cx.heap.get h).map Object.prototype

/-- `PROTOTYPE` (`src/boa/src/object/mod.rs` line 29). -/
def PROTOTYPE : String := "prototype"

/-- `ObjectBuilder` (`src/boa/src/object/mod.rs` lines 489-539).  The builder
holds its object's handle; the context is passed explicitly by each
operation. -/
structure ObjectBuilder where
  object : Nat
deriving DecidableEq, Repr

/-- `ObjectBuilder::new(context)` (lines 496-500). -/
def ObjectBuilder.new (cx : Context) : Context × ObjectBuilder :=
  let (cx, object) := cx.construct_object
  (cx, ⟨object⟩)

/-- `ObjectBuilder::function(function, name, length)` (lines 502-522): builds
a callable with permanent, non-enumerable `length`/`name`, attached under
`name` as writable/non-enumerable/configurable. -/
def ObjectBuilder.function (cx : Context) (b : ObjectBuilder) (function : NativeFn)
    (name : String) (length : Nat) : Context × ObjectBuilder :=
  let funcObj := Object.function (.builtIn function FunctionFlags.CALLABLE)
    (.object cx.standard_objects.function_object.prototype)
  let a := Attribute.READONLY_NON_ENUMERABLE_PERMANENT
  let funcObj := funcObj.insert_property (.string "length") (.integer length) a
  let funcObj := funcObj.insert_property (.string "name") (.string name) a
  let (H, fh) := cx.heap.alloc funcObj
  let H := H.update b.object (fun o =>
    o.insert_property (.string name) (.object fh)
      Attribute.WRITABLE_NON_ENUMERABLE_CONFIGURABLE)
  ({ cx with heap := H }, b)

/-- `ObjectBuilder::property(key, value, attribute)` (lines 524-533). -/
def ObjectBuilder.property (cx : Context) (b : ObjectBuilder) (key : PropertyKey)
    (value : Value) (a : Attribute) : Context × ObjectBuilder :=
  let H := cx.heap.update b.object (fun o => o.insert key (Property.data_descriptor value a))
  ({ cx with heap := H }, b)

/-- `ObjectBuilder::build()` (lines 535-538): the handle of the built
object. -/
def ObjectBuilder.build (b : ObjectBuilder) : Nat :=
  b.object

/-- `ConstructorBuilder` (`src/boa/src/object/mod.rs` lines 541-552): the pair
of handles being wired plus the constructor's descriptor metadata.  The
source's field name typo `constrcutor_function` is kept. -/
structure ConstructorBuilder where
  constrcutor_function : NativeFn
  constructor_object : Nat
  prototype : Nat
  name : Option String
  length : Nat
  callable : Bool
  constructable : Bool
  inherit : Option Value
deriving DecidableEq, Repr

/-- `ConstructorBuilder::new(context, constructor)` (lines 570-582): two fresh
empty handles. -/
def ConstructorBuilder.new (cx : Context) (constructor : NativeFn) :
    Context × ConstructorBuilder :=
  let (H, c) := cx.heap.alloc Object.default
  let (H, p) := H.alloc Object.default
  ({ cx with heap := H },
   { constrcutor_function := constructor
     constructor_object := c
     prototype := p
     name := none
     length := 0
     callable := true
     constructable := true
     inherit := none })

/-- `ConstructorBuilder::with_standard_object(context, constructor, object)`
(lines 584-600): reuses a pre-registered pair. -/
def ConstructorBuilder.with_standard_object (constructor : NativeFn)
    (object : StandardConstructor) : ConstructorBuilder :=
  { constrcutor_function := constructor
    constructor_object := object.constructor
    prototype := object.prototype
    name := none
    length := 0
    callable := true
    constructable := true
    inherit := none }

/-- `ConstructorBuilder::method(function, name, length)` (lines 602-622):
callable with permanent `length`/`name`, attached to the prototype as
writable/non-enumerable/configurable. -/
def ConstructorBuilder.method (cx : Context) (b : ConstructorBuilder)
    (function : NativeFn) (name : String) (length : Nat) :
    Context × ConstructorBuilder :=
  let funcObj := Object.function (.builtIn function FunctionFlags.CALLABLE)
    (.object cx.standard_objects.function_object.prototype)
  let a := Attribute.READONLY_NON_ENUMERABLE_PERMANENT
  let funcObj := funcObj.insert_property (.string "length") (.integer length) a
  let funcObj := funcObj.insert_property (.string "name") (.string name) a
  let (H, fh) := cx.heap.alloc funcObj
  let H := H.update b.prototype (fun o =>
    o.insert_property (.string name) (.object fh)
      Attribute.WRITABLE_NON_ENUMERABLE_CONFIGURABLE)
  ({ cx with heap := H }, b)

/-- `ConstructorBuilder::static_method(function, name, length)`
(lines 624-649): same as `method` but attached to the constructor object. -/
def ConstructorBuilder.static_method (cx : Context) (b : ConstructorBuilder)
    (function : NativeFn) (name : String) (length : Nat) :
    Context × ConstructorBuilder :=
  let funcObj := Object.function (.builtIn function FunctionFlags.CALLABLE)
    (.object cx.standard_objects.function_object.prototype)
  let a := Attribute.READONLY_NON_ENUMERABLE_PERMANENT
  let funcObj := funcObj.insert_property (.string "length") (.integer length) a
  let funcObj := funcObj.insert_property (.string "name") (.string name) a
  let (H, fh) := cx.heap.alloc funcObj
  let H := H.update b.constructor_object (fun o =>
    o.insert_property (.string name) (.object fh)
      Attribute.WRITABLE_NON_ENUMERABLE_CONFIGURABLE)
  ({ cx with heap := H }, b)

/-- `ConstructorBuilder::property(key, value, attribute)` (lines 651-660):
raw data property on the prototype. -/
def ConstructorBuilder.property (cx : Context) (b : ConstructorBuilder)
    (key : PropertyKey) (value : Value) (a : Attribute) :
    Context × ConstructorBuilder :=
  let H := cx.heap.update b.prototype (fun o => o.insert key (Property.data_descriptor value a))
  ({ cx with heap := H }, b)

/-- `ConstructorBuilder::static_property(key, value, attribute)`
(lines 662-671): raw data property on the constructor object. -/
def ConstructorBuilder.static_property (cx : Context) (b : ConstructorBuilder)
    (key : PropertyKey) (value : Value) (a : Attribute) :
    Context × ConstructorBuilder :=
  let H := cx.heap.update b.constructor_object
    (fun o => o.insert key (Property.data_descriptor value a))
  ({ cx with heap := H }, b)

/-- `ConstructorBuilder::length(length)` (lines 676-679). -/
def ConstructorBuilder.set_length (b : ConstructorBuilder) (length : Nat) :
    ConstructorBuilder :=
  { b with length := length }

/-- `ConstructorBuilder::name(name)` (lines 684-690). -/
def ConstructorBuilder.set_name (b : ConstructorBuilder) (name : String) :
    ConstructorBuilder :=
  { b with name := some name }

/-- `ConstructorBuilder::callable(callable)` (lines 695-698). -/
def ConstructorBuilder.set_callable (b : ConstructorBuilder) (callable : Bool) :
    ConstructorBuilder :=
  { b with callable := callable }

/-- `ConstructorBuilder::constructable(constructable)` (lines 703-706). -/
def ConstructorBuilder.set_constructable (b : ConstructorBuilder)
    (constructable : Bool) : ConstructorBuilder :=
  { b with constructable := constructable }

/-- `ConstructorBuilder::inherit(prototype)` (lines 711-715).  The source
asserts `prototype.is_object() || prototype.is_null()`; every excerpt call
site satisfies it, so the panic path is never taken. -/
def ConstructorBuilder.set_inherit (b : ConstructorBuilder) (prototype : Value) :
    ConstructorBuilder :=
  { b with inherit := some prototype }

/-- `ConstructorBuilder::build()` (`src/boa/src/object/mod.rs` lines 723-785):
installs the native-function slot and permanent `length`/`name` on the
constructor, links the constructor to the Function prototype, attaches the
prototype under the permanent non-enumerable `"prototype"` key, then attaches
the `"constructor"` back-reference (writable/non-enumerable/configurable) and
sets the prototype's inheritance link (`inherit`, else the Object prototype).
Returns the constructor's handle. -/
def ConstructorBuilder.build (cx : Context) (b : ConstructorBuilder) :
    Context × Nat :=
  let function := Function.builtIn b.constrcutor_function
    (FunctionFlags.from_parameters b.callable b.constructable)
  let length := Property.data_descriptor (.integer b.length)
    Attribute.READONLY_NON_ENUMERABLE_PERMANENT
  let name := Property.data_descriptor (.string (b.name.getD "[object]"))
    Attribute.READONLY_NON_ENUMERABLE_PERMANENT
  let H := cx.heap.update b.constructor_object (fun constructor =>
    let constructor := { constructor with data := .function function }
    let constructor := constructor.insert (.string "length") length
    let constructor := constructor.insert (.string "name") name
    let constructor := constructor.set_prototype_instance
      (.object cx.standard_objects.function_object.prototype)
    constructor.insert_property (.string PROTOTYPE) (.object b.prototype)
      Attribute.READONLY_NON_ENUMERABLE_PERMANENT)
  let H := H.update b.prototype (fun prototype =>
    let prototype := prototype.insert_property (.string "constructor")
      (.object b.constructor_object)
      Attribute.WRITABLE_NON_ENUMERABLE_CONFIGURABLE
    match b.inherit with
    | some proto => prototype.set_prototype_instance proto
    | none => prototype.set_prototype_instance
        (.object cx.standard_objects.object_object.prototype))
  ({ cx with heap := H }, b.constructor_object)

/-- `ObjectBuilder` (`src/boa/src/builtins/mod.rs` lines 56-104) — the
builtins module's own object builder (it differs from the object module's:
its `static_method` uses `Attribute::all()` throughout). -/
structure BuiltinsObjectBuilder where
  object : Nat
deriving DecidableEq, Repr

/-- `builtins::ObjectBuilder::new(context)` (lines 62-66). -/
def BuiltinsObjectBuilder.new (cx : Context) : Context × BuiltinsObjectBuilder :=
  let (cx, object) := cx.construct_object
  (cx, ⟨object⟩)

/-- `builtins::ObjectBuilder::static_method(function, name, length)`
(lines 68-89): `length`/`name` and the installed slot all carry
`Attribute::all()`. -/
def BuiltinsObjectBuilder.static_method (cx : Context) (b : BuiltinsObjectBuilder)
    (function : NativeFn) (name : String) (length : Nat) :
    Context × BuiltinsObjectBuilder :=
  let funcObj := Object.function (.builtIn function FunctionFlags.CALLABLE)
    (.object cx.standard_objects.function_object.prototype)
  let funcObj := funcObj.insert_property (.string "length") (.integer length) Attribute.all
  let funcObj := funcObj.insert_property (.string "name") (.string name) Attribute.all
  let (H, fh) := cx.heap.alloc funcObj
  let H := H.update b.object (fun o =>
    o.insert_property (.string name) (.object fh) Attribute.all)
  ({ cx with heap := H }, b)

/-- `builtins::ObjectBuilder::static_property(key, value, attribute)`
(lines 91-99). -/
def BuiltinsObjectBuilder.static_property (cx : Context) (b : BuiltinsObjectBuilder)
    (key : PropertyKey) (value : Value) (a : Attribute) :
    Context × BuiltinsObjectBuilder :=
  let H := cx.heap.update b.object (fun o => o.insert key (Property.data_descriptor value a))
  ({ cx with heap := H }, b)

/-- `builtins::ObjectBuilder::build()` (lines 101-103). -/
def BuiltinsObjectBuilder.build (b : BuiltinsObjectBuilder) : Value :=
  .object b.object

/-- `ConstructorBuilder` (`src/boa/src/builtins/mod.rs` lines 106-116) — the
builtins module's own constructor builder.  Unlike the object module's, its
`name` field is a plain string defaulting to `"[Object]"`, and its `method`,
`static_method` and `build` install `length`/`name`, the method slots and
the `"prototype"`/`"constructor"` back-references under `Attribute::all()`. -/
structure BuiltinsConstructorBuilder where
  constrcutor_function : NativeFn
  constructor_object : Nat
  prototype : Nat
  name : String
  length : Nat
  callable : Bool
  constructable : Bool
  inherit : Option Value
deriving DecidableEq, Repr

/-- `builtins::ConstructorBuilder::new(context, constructor)`
(lines 133-145). -/
def BuiltinsConstructorBuilder.new (cx : Context) (constructor : NativeFn) :
    Context × BuiltinsConstructorBuilder :=
  let (H, c) := cx.heap.alloc Object.default
  let (H, p) := H.alloc Object.default
  ({ cx with heap := H },
   { constrcutor_function := constructor
     constructor_object := c
     prototype := p
     name := "[Object]"
     length := 0
     callable := true
     constructable := true
     inherit := none })

/-- `builtins::ConstructorBuilder::with_standard_object(context, constructor,
object)` (lines 147-163). -/
def BuiltinsConstructorBuilder.with_standard_object (constructor : NativeFn)
    (object : StandardConstructor) : BuiltinsConstructorBuilder :=
  { constrcutor_function := constructor
    constructor_object := object.constructor
    prototype := object.prototype
    name := "[Object]"
    length := 0
    callable := true
    constructable := true
    inherit := none }

/-- `builtins::ConstructorBuilder::method(function, name, length)`
(lines 165-181): `length`/`name` and the prototype slot all carry
`Attribute::all()`. -/
def BuiltinsConstructorBuilder.method (cx : Context) (b : BuiltinsConstructorBuilder)
    (function : NativeFn) (name : String) (length : Nat) :
    Context × BuiltinsConstructorBuilder :=
  let funcObj := Object.function (.builtIn function FunctionFlags.CALLABLE)
    (.object cx.standard_objects.function_object.prototype)
  let funcObj := funcObj.insert_property (.string "length") (.integer length) Attribute.all
  let funcObj := funcObj.insert_property (.string "name") (.string name) Attribute.all
  let (H, fh) := cx.heap.alloc funcObj
  let H := H.update b.prototype (fun o =>
    o.insert_property (.string name) (.object fh) Attribute.all)
  ({ cx with heap := H }, b)

/-- `builtins::ConstructorBuilder::static_method(function, name, length)`
(lines 183-206): like `method`, on the constructor object. -/
def BuiltinsConstructorBuilder.static_method (cx : Context)
    (b : BuiltinsConstructorBuilder) (function : NativeFn) (name : String)
    (length : Nat) : Context × BuiltinsConstructorBuilder :=
  let funcObj := Object.function (.builtIn function FunctionFlags.CALLABLE)
    (.object cx.standard_objects.function_object.prototype)
  let funcObj := funcObj.insert_property (.string "length") (.integer length) Attribute.all
  let funcObj := funcObj.insert_property (.string "name") (.string name) Attribute.all
  let (H, fh) := cx.heap.alloc funcObj
  let H := H.update b.constructor_object (fun o =>
    o.insert_property (.string name) (.object fh) Attribute.all)
  ({ cx with heap := H }, b)

/-- `builtins::ConstructorBuilder::property(key, value, attribute)`
(lines 208-216). -/
def BuiltinsConstructorBuilder.property (cx : Context)
    (b : BuiltinsConstructorBuilder) (key : PropertyKey) (value : Value)
    (a : Attribute) : Context × BuiltinsConstructorBuilder :=
  let H := cx.heap.update b.prototype (fun o => o.insert key (Property.data_descriptor value a))
  ({ cx with heap := H }, b)

/-- `builtins::ConstructorBuilder::static_property(key, value, attribute)`
(lines 218-226). -/
def BuiltinsConstructorBuilder.static_property (cx : Context)
    (b : BuiltinsConstructorBuilder) (key : PropertyKey) (value : Value)
    (a : Attribute) : Context × BuiltinsConstructorBuilder :=
  let H := cx.heap.update b.constructor_object
    (fun o => o.insert key (Property.data_descriptor value a))
  ({ cx with heap := H }, b)

/-- `builtins::ConstructorBuilder::length(length)` (lines 228-231). -/
def BuiltinsConstructorBuilder.set_length (b : BuiltinsConstructorBuilder)
    (length : Nat) : BuiltinsConstructorBuilder :=
  { b with length := length }

/-- `builtins::ConstructorBuilder::name(name)` (lines 233-239). -/
def BuiltinsConstructorBuilder.set_name (b : BuiltinsConstructorBuilder)
    (name : String) : BuiltinsConstructorBuilder :=
  { b with name := name }

/-- `builtins::ConstructorBuilder::callable(callable)` (lines 241-244). -/
def BuiltinsConstructorBuilder.set_callable (b : BuiltinsConstructorBuilder)
    (callable : Bool) : BuiltinsConstructorBuilder :=
  { b with callable := callable }

/-- `builtins::ConstructorBuilder::constructable(constructable)`
(lines 246-249). -/
def BuiltinsConstructorBuilder.set_constructable (b : BuiltinsConstructorBuilder)
    (constructable : Bool) : BuiltinsConstructorBuilder :=
  { b with constructable := constructable }

/-- `builtins::ConstructorBuilder::inherit(prototype)` (lines 251-255);
asserts object-or-null, satisfied at every excerpt call site. -/
def BuiltinsConstructorBuilder.set_inherit (b : BuiltinsConstructorBuilder)
    (prototype : Value) : BuiltinsConstructorBuilder :=
  { b with inherit := some prototype }

/-- `builtins::ConstructorBuilder::build()` (`src/boa/src/builtins/mod.rs`
lines 261-318).  Same two-phase wiring as the object module's `build`, except
that the constructor's `"prototype"` key and the prototype's `"constructor"`
back-reference are installed under `Attribute::all()` (the constructor's own
`length`/`name` still carry the permanent flags), and the `name` string is
taken by swap with the empty string. -/
def BuiltinsConstructorBuilder.build (cx : Context) (b : BuiltinsConstructorBuilder) :
    Context × Nat :=
  let function := Function.builtIn b.constrcutor_function
    (FunctionFlags.from_parameters b.callable b.constructable)
  let length := Property.data_descriptor (.integer b.length)
    Attribute.READONLY_NON_ENUMERABLE_PERMANENT
  let name := Property.data_descriptor (.string b.name)
    Attribute.READONLY_NON_ENUMERABLE_PERMANENT
  let H := cx.heap.update b.constructor_object (fun constructor =>
    let constructor := { constructor with data := .function function }
    let constructor := constructor.insert (.string "length") length
    let constructor := constructor.insert (.string "name") name
    let constructor := constructor.set_prototype_instance
      (.object cx.standard_objects.function_object.prototype)
    constructor.insert_property (.string PROTOTYPE) (.object b.prototype)
      Attribute.all)
  let H := H.update b.prototype (fun prototype =>
    let prototype := prototype.insert_property (.string "constructor")
      (.object b.constructor_object) Attribute.all
    match b.inherit with
    | some proto => prototype.set_prototype_instance proto
    | none => prototype.set_prototype_instance
        (.object cx.standard_objects.object_object.prototype))
  ({ cx with heap := H }, b.constructor_object)

/-- `BuiltIn::attribute()`'s default body (`src/boa/src/builtins/mod.rs`
lines 325-327): `Attribute::all()`. -/
def BuiltIn.default_attribute : Attribute :=
  Attribute.all

/-- `RangeError::NAME` (`src/boa/src/builtins/error/range.rs` line 25). -/
def RangeError.NAME : String := "RangeError"

/-- `RangeError::LENGTH` (line 49). -/
def RangeError.LENGTH : Nat := 1

/-- `RangeError`'s `BuiltIn::attribute()`: not overridden, so the trait
default. -/
def RangeError.attribute_value : Attribute :=
  BuiltIn.default_attribute

/-- `RangeError::constructor(this, args, ctx)`
(`src/boa/src/builtins/error/range.rs` lines 52-61): coerce and store the
optional message, retag `this` as Error, return `this` through the error
channel. -/
def RangeError.constructor (H : Heap) (this : Value) (args : List Value) :
    Heap × Except Value Value :=
  match args.head? with
  | some message =>
    match message.to_string_coerce with
    | .error e => (H, .error e)
    | .ok s =>
      let H := Value.set_field H this "message" (.string s)
      let H := Value.set_data H this .error
      (H, .error this)
  | none =>
    let H := Value.set_data H this .error
    (H, .error this)

/-- `RangeError::to_string(this, _, ctx)` (lines 74-79): coerce the `name`
and `message` fields and join them as `"<name>: <message>"`. -/
def RangeError.to_string (H : Heap) (this : Value) (_args : List Value) :
    Except Value Value :=
  match (Value.get_field H this "name").to_string_coerce with
  | .error e => .error e
  | .ok name =>
    match (Value.get_field H this "message").to_string_coerce with
    | .error e => .error e
    | .ok message => .ok (.string (name ++ ": " ++ message))

/-- `RangeError::init(context)` (lines 27-44): `with_standard_object` on the
pre-registered RangeError pair; name, length, prototype `name`/`message`
defaults, `toString` method, build; returns the binding triple.  Note: no
`inherit` call. -/
def RangeError.init (cx : Context) : Context × (String × Value × Attribute) :=
  let a := Attribute.WRITABLE_NON_ENUMERABLE_CONFIGURABLE
  let b := ConstructorBuilder.with_standard_object .rangeErrorConstructorFn
    cx.standard_objects.range_error_object
  let b := b.set_name RangeError.NAME
  let b := b.set_length RangeError.LENGTH
  let (cx, b) := ConstructorBuilder.property cx b (.string "name") (.string RangeError.NAME) a
  let (cx, b) := ConstructorBuilder.property cx b (.string "message") (.string "") a
  let (cx, b) := ConstructorBuilder.method cx b .rangeErrorToStringFn "toString" 0
  let (cx, c) := ConstructorBuilder.build cx b
  (cx, (RangeError.NAME, .object c, RangeError.attribute_value))

/-- `ReferenceError::NAME` (`src/boa/src/builtins/error/reference.rs`
line 24). -/
def ReferenceError.NAME : String := "ReferenceError"

/-- `ReferenceError::LENGTH` (line 48). -/
def ReferenceError.LENGTH : Nat := 1

/-- `ReferenceError`'s `BuiltIn::attribute()`: not overridden, so the trait
default. -/
def ReferenceError.attribute_value : Attribute :=
  BuiltIn.default_attribute

/-- `ReferenceError::constructor(this, args, ctx)` (lines 51-60): textually
the same body as `RangeError::constructor`. -/
def ReferenceError.constructor (H : Heap) (this : Value) (args : List Value) :
    Heap × Except Value Value :=
  match args.head? with
  | some message =>
    match message.to_string_coerce with
    | .error e => (H, .error e)
    | .ok s =>
      let H := Value.set_field H this "message" (.string s)
      let H := Value.set_data H this .error
      (H, .error this)
  | none =>
    let H := Value.set_data H this .error
    (H, .error this)

/-- `ReferenceError::to_string(this, _, ctx)` (lines 73-78): same coercing
body as `RangeError::to_string`. -/
def ReferenceError.to_string (H : Heap) (this : Value) (_args : List Value) :
    Except Value Value :=
  match (Value.get_field H this "name").to_string_coerce with
  | .error e => .error e
  | .ok name =>
    match (Value.get_field H this "message").to_string_coerce with
    | .error e => .error e
    | .ok message => .ok (.string (name ++ ": " ++ message))

/-- `ReferenceError::init(context)` (lines 26-43).  Note: this file imports
`ConstructorBuilder` from `crate::builtins` — the builtins module's builder,
not the object module's. -/
def ReferenceError.init (cx : Context) : Context × (String × Value × Attribute) :=
  let a := Attribute.WRITABLE_NON_ENUMERABLE_CONFIGURABLE
  let b := BuiltinsConstructorBuilder.with_standard_object .referenceErrorConstructorFn
    cx.standard_objects.reference_error_object
  let b := b.set_name ReferenceError.NAME
  let b := b.set_length ReferenceError.LENGTH
  let (cx, b) := BuiltinsConstructorBuilder.property cx b (.string "name")
    (.string ReferenceError.NAME) a
  let (cx, b) := BuiltinsConstructorBuilder.property cx b (.string "message") (.string "") a
  let (cx, b) := BuiltinsConstructorBuilder.method cx b .referenceErrorToStringFn "toString" 0
  let (cx, c) := BuiltinsConstructorBuilder.build cx b
  (cx, (ReferenceError.NAME, .object c, ReferenceError.attribute_value))

/-- `SyntaxError::NAME` (`src/boa/src/builtins/error/syntax.rs` line 27). -/
def SyntaxError.NAME : String := "SyntaxError"

/-- `SyntaxError::LENGTH` (line 55). -/
def SyntaxError.LENGTH : Nat := 1

/-- `SyntaxError`'s `BuiltIn::attribute()` (lines 29-31): overridden to
`WRITABLE | NON_ENUMERABLE | CONFIGURABLE`. -/
def SyntaxError.attribute_value : Attribute :=
  Attribute.WRITABLE_NON_ENUMERABLE_CONFIGURABLE

/-- `SyntaxError::constructor(this, args, ctx)` (lines 58-67): textually the
same body as `RangeError::constructor`. -/
def SyntaxError.constructor (H : Heap) (this : Value) (args : List Value) :
    Heap × Except Value Value :=
  match args.head? with
  | some message =>
    match message.to_string_coerce with
    | .error e => (H, .error e)
    | .ok s =>
      let H := Value.set_field H this "message" (.string s)
      let H := Value.set_data H this .error
      (H, .error this)
  | none =>
    let H := Value.set_data H this .error
    (H, .error this)

/-- Modelled from the spec: `Value`'s `Display` rendering used by
`SyntaxError::to_string` (the source flags this bypass of the coercion path
as a FIXME; the display routine itself is outside the excerpt).  Primitives
render as their text, a symbol as its `Symbol()` form, an object through the
out-of-scope recursive dump, embedded as the default object text. -/
def Value.display : Value → String
  | .null => "null"
  | .undefined => "undefined"
  | .boolean b => if b then "true" else "false"
  | .integer n => toString n
  | .string s => s
  | .symbol _ => "Symbol()"
  | .object _ => "[object Object]"

/-- `SyntaxError::to_string(this, _, _)` (lines 80-85): reads `name` and
`message` and joins their `display` renderings — no coercion, no failure
path. -/
def SyntaxError.to_string (H : Heap) (this : Value) (_args : List Value) :
    Except Value Value :=
  let name := Value.get_field H this "name"
  let message := Value.get_field H this "message"
  .ok (.string (name.display ++ ": " ++ message.display))

/-- `SyntaxError::init(context)` (lines 33-50): same shape as
`RangeError::init`, on the SyntaxError pair (this file uses the object
module's builder). -/
def SyntaxError.init (cx : Context) : Context × (String × Value × Attribute) :=
  let a := Attribute.WRITABLE_NON_ENUMERABLE_CONFIGURABLE
  let b := ConstructorBuilder.with_standard_object .syntaxErrorConstructorFn
    cx.standard_objects.syntax_error_object
  let b := b.set_name SyntaxError.NAME
  let b := b.set_length SyntaxError.LENGTH
  let (cx, b) := ConstructorBuilder.property cx b (.string "name") (.string SyntaxError.NAME) a
  let (cx, b) := ConstructorBuilder.property cx b (.string "message") (.string "") a
  let (cx, b) := ConstructorBuilder.method cx b .syntaxErrorToStringFn "toString" 0
  let (cx, c) := ConstructorBuilder.build cx b
  (cx, (SyntaxError.NAME, .object c, SyntaxError.attribute_value))

/-- Modelled from the spec: `Error::init` — the base `Error` built-in's
`init` (its file `error/mod.rs` is not in the excerpt).  Per sections 4.6 and
4.7 it performs the same ConstructorBuilder dance as the subtypes, on the
pre-registered Error pair: name, length 1, prototype `name`/`message`
defaults, `toString`, build. -/
def ErrorBuiltIn.init (cx : Context) : Context × (String × Value × Attribute) :=
  let a := Attribute.WRITABLE_NON_ENUMERABLE_CONFIGURABLE
  let b := ConstructorBuilder.with_standard_object .errorConstructorFn
    cx.standard_objects.error_object
  let b := b.set_name "Error"
  let b := b.set_length 1
  let (cx, b) := ConstructorBuilder.property cx b (.string "name") (.string "Error") a
  let (cx, b) := ConstructorBuilder.property cx b (.string "message") (.string "") a
  let (cx, b) := ConstructorBuilder.method cx b .errorToStringFn "toString" 0
  let (cx, c) := ConstructorBuilder.build cx b
  (cx, ("Error", .object c, BuiltIn.default_attribute))

/-- Modelled from the spec: `TypeError::init` (its file `error/type.rs` is
not in the excerpt); same pattern as the other error subtypes, on the
TypeError pair. -/
def TypeErrorBuiltIn.init (cx : Context) : Context × (String × Value × Attribute) :=
  let a := Attribute.WRITABLE_NON_ENUMERABLE_CONFIGURABLE
  let b := ConstructorBuilder.with_standard_object .typeErrorConstructorFn
    cx.standard_objects.type_error_object
  let b := b.set_name "TypeError"
  let b := b.set_length 1
  let (cx, b) := ConstructorBuilder.property cx b (.string "name") (.string "TypeError") a
  let (cx, b) := ConstructorBuilder.property cx b (.string "message") (.string "") a
  let (cx, b) := ConstructorBuilder.method cx b .typeErrorToStringFn "toString" 0
  let (cx, c) := ConstructorBuilder.build cx b
  (cx, ("TypeError", .object c, BuiltIn.default_attribute))

/-- Modelled from the spec: a built-in of the aggregate list whose source is
not in the excerpt and which no claim observes (Undefined, Math, Array, …).
It returns its `(name, value, attribute)` binding triple — default attribute,
value outside the model — and touches no object any claim reads (each
built-in populates only its own pair, spec section 4.6). -/
def placeholder_init (name : String) (cx : Context) :
    Context × (String × Value × Attribute) :=
  (cx, (name, .undefined, BuiltIn.default_attribute))

/-- One step of the aggregate initializer's loop
(`src/boa/src/builtins/mod.rs` lines 367-371): run an `init` and insert the
resulting binding into the global object's own property map. -/
def install (cx : Context) (ini : Context → Context × (String × Value × Attribute)) :
    Context :=
  let (cx, r) := ini cx
  { cx with
    heap := cx.heap.update cx.global_object
      (fun g => g.insert (.string r.1) (Property.data_descriptor r.2.1 r.2.2)) }

/-- The aggregate initializer `init` (`src/boa/src/builtins/mod.rs`
lines 333-372): the fixed ordered list of built-in `init`s, each installed
into the global object.  Entries whose sources are not in the excerpt run as
`placeholder_init` (or the spec-modelled `ErrorBuiltIn.init` /
`TypeErrorBuiltIn.init`); the order is the source's. -/
def init (cx : Context) : Context :=
  let cx := install cx (placeholder_init "undefined")
  let cx := install cx (placeholder_init "Infinity")
  let cx := install cx (placeholder_init "NaN")
  let cx := install cx (placeholder_init "globalThis")
  let cx := install cx (placeholder_init "Function")
  let cx := install cx (placeholder_init "Object")
  let cx := install cx (placeholder_init "Math")
  let cx := install cx (placeholder_init "JSON")
  let cx := install cx (placeholder_init "console")
  let cx := install cx (placeholder_init "Array")
  let cx := install cx (placeholder_init "BigInt")
  let cx := install cx (placeholder_init "Boolean")
  let cx := install cx (placeholder_init "Date")
  let cx := install cx (placeholder_init "Map")
  let cx := install cx (placeholder_init "Number")
  let cx := install cx (placeholder_init "String")
  let cx := install cx (placeholder_init "RegExp")
  let cx := install cx (placeholder_init "Symbol")
  let cx := install cx ErrorBuiltIn.init
  let cx := install cx RangeError.init
  let cx := install cx ReferenceError.init
  let cx := install cx TypeErrorBuiltIn.init
  let cx := install cx SyntaxError.init
  cx

/-- The Function prototype's handle in the concrete start-up context. -/
def functionProtoH : Nat := 0
/-- The Object prototype's handle in the concrete start-up context. -/
def objectProtoH : Nat := 2
/-- The Error prototype's handle in the concrete start-up context. -/
def errorProtoH : Nat := 4
/-- The RangeError prototype's handle in the concrete start-up context. -/
def rangeErrorProtoH : Nat := 6
/-- The RangeError constructor's handle in the concrete start-up context. -/
def rangeErrorCtorH : Nat := 7
/-- The global object's handle in the concrete start-up context. -/
def globalH : Nat := 14

/-- Modelled from the spec: the concrete context-initialization state handed
to the aggregate initializer (spec sections 3 and 6): fifteen pre-allocated
empty objects — a (constructor, prototype) standard pair for each built-in
class the excerpt touches, plus the global object — with stable, pairwise
distinct handles. -/
def initialContext : Context :=
  { heap := ⟨List.replicate 15 Object.default⟩
    standard_objects :=
      { function_object := ⟨1, functionProtoH⟩
        object_object := ⟨3, objectProtoH⟩
        error_object := ⟨5, errorProtoH⟩
        range_error_object := ⟨rangeErrorCtorH, rangeErrorProtoH⟩
        reference_error_object := ⟨9, 8⟩
        syntax_error_object := ⟨11, 10⟩
        type_error_object := ⟨13, 12⟩ }
    global_object := globalH }

/-- The context after the aggregate initializer has run on the start-up
context. -/
def postInitContext : Context :=
  init initialContext

/-- Modelled from the spec: `new`-style construction (spec section 6 calling
convention): allocate a fresh ordinary object whose prototype link is the
constructor's `"prototype"` property, bind it as `this`, run the native
constructor body on it. -/
def constructWith (cx : Context) (ctor : Nat)
    (body : Heap → Value → List Value → Heap × Except Value Value)
    (args : List Value) : Context × Except Value Value :=
  let proto := (cx.ownPropValue ctor PROTOTYPE).getD .undefined
  let (H, thisH) := cx.heap.alloc (Object.create proto)
  let (H, res) := body H (.object thisH) args
  ({ cx with heap := H }, res)

/-- `new RangeError(args)` against the fully initialized context. -/
def rangeErrorNew (args : List Value) : Context × Except Value Value :=
  constructWith postInitContext rangeErrorCtorH RangeError.constructor args

/-- The handle of the object `new RangeError(args)` allocates (the next free
handle of the post-initialization heap). -/
def rangeErrorNewThisH : Nat :=
  postInitContext.heap.objs.length

/-! ## Heap and property-map lemmas -/

theorem Heap.get_eq_getElem (H : Heap) (h : Nat) (hl : h < H.objs.length) :
    H.get h = some H.objs[h] := by
  simp [Heap.get, List.getElem?_eq_getElem hl]

theorem Heap.get_update_self (H : Heap) (h : Nat) (f : Object → Object) :
    (H.update h f).get h = (H.get h).map f := by
  unfold Heap.update Heap.get
  cases hg : H.objs[h]? with
  | none => simp [hg]
  | some o =>
    have hlt : h < H.objs.length := by
      by_contra hge
      simp [List.getElem?_eq_none (Nat.le_of_not_lt hge)] at hg
    simp [hg, List.getElem?_set_self', List.getElem?_eq_getElem hlt]

theorem Heap.get_update_ne (H : Heap) (h h2 : Nat) (f : Object → Object)
    (hne : h ≠ h2) : (H.update h f).get h2 = H.get h2 := by
  unfold Heap.update Heap.get
  cases hg : H.objs[h]? with
  | none => simp
  | some o => simp [List.getElem?_set_ne hne]

theorem Heap.length_update (H : Heap) (h : Nat) (f : Object → Object) :
    (H.update h f).objs.length = H.objs.length := by
  unfold Heap.update
  cases hg : H.objs[h]? <;> simp

theorem Heap.get_alloc_self (H : Heap) (o : Object) :
    (H.alloc o).1.get (H.alloc o).2 = some o := by
  simp [Heap.alloc, Heap.get]

theorem Heap.get_alloc_old (H : Heap) (o : Object) (h : Nat)
    (hl : h < H.objs.length) : (H.alloc o).1.get h = H.get h := by
  simp [Heap.alloc, Heap.get, List.getElem?_append, hl]

theorem Heap.get_append_self (H : Heap) (o : Object) :
    (Heap.mk (H.objs ++ [o])).get H.objs.length = some o := by
  simp [Heap.get]

theorem Heap.get_append_old (H : Heap) (o : Object) (h : Nat)
    (hl : h < H.objs.length) : (Heap.mk (H.objs ++ [o])).get h = H.get h := by
  simp [Heap.get, List.getElem?_append, hl]

theorem assocFind_insert_self {α β : Type} [DecidableEq α]
    (l : List (α × β)) (k : α) (v : β) :
    assocFind (assocInsert l k v) k = some v := by
  induction l with
  | nil => simp [assocInsert, assocFind]
  | cons p rest ih =>
    obtain ⟨k1, v1⟩ := p
    by_cases h : k1 = k <;> simp [assocInsert, assocFind, h, ih]

theorem assocFind_insert_ne {α β : Type} [DecidableEq α]
    (l : List (α × β)) (k k2 : α) (v : β) (h : k ≠ k2) :
    assocFind (assocInsert l k v) k2 = assocFind l k2 := by
  induction l with
  | nil => simp [assocInsert, assocFind, h]
  | cons p rest ih =>
    obtain ⟨k1, v1⟩ := p
    by_cases h1 : k1 = k
    · subst h1
      simp [assocInsert, assocFind, h]
    · by_cases h2 : k1 = k2 <;>
        simp [assocInsert, assocFind, h1, h2, Ne.symm h, ih]

/-! ## C4 — exact-type native downcasting -/

/-- **C4.** For every `Object` and every native payload type `T`:
`downcast_ref::<T>()` returns a populated result iff the object's data is the
`NativeObject` variant and the stored payload's exact dynamic type is `T`
(and then it returns exactly the stored payload); for any other type
parameter, and for any object whose data is not the `NativeObject` variant,
it returns `none`; and `is::<T>()` agrees with this iff-condition. -/
theorem c4_downcast_ref_exact_type (o : Object) (T : Nat) :
    ((o.downcast_ref T).isSome ↔
      ∃ payload, o.data = .nativeObject payload ∧ payload.ty = T)
    ∧ (o.is T = true ↔ (o.downcast_ref T).isSome)
    ∧ (∀ payload, o.data = .nativeObject payload →
        o.downcast_ref payload.ty = some payload.val) := by
  refine ⟨?_, ?_, ?_⟩
  · unfold Object.downcast_ref
    cases hd : o.data <;> simp [hd]
  · unfold Object.is Object.downcast_ref
    cases hd : o.data <;> simp
  · intro payload hp
    unfold Object.downcast_ref
    simp [hp]

/-! ## Post-`build` state of the two constructor builders (shared lemmas) -/

theorem build_snd (cx : Context) (b : ConstructorBuilder) :
    (ConstructorBuilder.build cx b).2 = b.constructor_object := rfl

theorem build_ctor_prototype_prop (cx : Context) (b : ConstructorBuilder)
    (hc : b.constructor_object < cx.heap.objs.length)
    (hne : b.constructor_object ≠ b.prototype) :
    Context.ownProp (ConstructorBuilder.build cx b).1 b.constructor_object PROTOTYPE =
      some (Property.data_descriptor (.object b.prototype)
        Attribute.READONLY_NON_ENUMERABLE_PERMANENT) := by
  simp only [ConstructorBuilder.build, Context.ownProp]
  rw [Heap.get_update_ne _ _ _ _ (Ne.symm hne), Heap.get_update_self,
    Heap.get_eq_getElem _ _ hc]
  simp [Object.insert_property, Object.insert, Object.set_prototype_instance,
    PROTOTYPE, assocFind_insert_self]

theorem build_ctor_proto_link (cx : Context) (b : ConstructorBuilder)
    (hc : b.constructor_object < cx.heap.objs.length)
    (hne : b.constructor_object ≠ b.prototype) :
    Context.protoOf (ConstructorBuilder.build cx b).1 b.constructor_object =
      some (.object cx.standard_objects.function_object.prototype) := by
  simp only [ConstructorBuilder.build, Context.protoOf]
  rw [Heap.get_update_ne _ _ _ _ (Ne.symm hne), Heap.get_update_self,
    Heap.get_eq_getElem _ _ hc]
  simp [Object.insert_property, Object.insert, Object.set_prototype_instance]

theorem build_proto_constructor_prop (cx : Context) (b : ConstructorBuilder)
    (hp : b.prototype < cx.heap.objs.length)
    (hne : b.constructor_object ≠ b.prototype) :
    Context.ownProp (ConstructorBuilder.build cx b).1 b.prototype "constructor" =
      some (Property.data_descriptor (.object b.constructor_object)
        Attribute.WRITABLE_NON_ENUMERABLE_CONFIGURABLE) := by
  simp only [ConstructorBuilder.build, Context.ownProp]
  rw [Heap.get_update_self, Heap.get_update_ne _ _ _ _ hne,
    Heap.get_eq_getElem _ _ hp]
  cases b.inherit <;>
    simp [Object.insert_property, Object.insert, Object.set_prototype_instance,
      assocFind_insert_self]

theorem builtins_build_snd (cx : Context) (b : BuiltinsConstructorBuilder) :
    (BuiltinsConstructorBuilder.build cx b).2 = b.constructor_object := rfl

theorem builtins_build_ctor_prototype_prop (cx : Context)
    (b : BuiltinsConstructorBuilder)
    (hc : b.constructor_object < cx.heap.objs.length)
    (hne : b.constructor_object ≠ b.prototype) :
    Context.ownProp (BuiltinsConstructorBuilder.build cx b).1
        b.constructor_object PROTOTYPE =
      some (Property.data_descriptor (.object b.prototype) Attribute.all) := by
  simp only [BuiltinsConstructorBuilder.build, Context.ownProp]
  rw [Heap.get_update_ne _ _ _ _ (Ne.symm hne), Heap.get_update_self,
    Heap.get_eq_getElem _ _ hc]
  simp [Object.insert_property, Object.insert, Object.set_prototype_instance,
    PROTOTYPE, assocFind_insert_self]

theorem builtins_build_ctor_proto_link (cx : Context)
    (b : BuiltinsConstructorBuilder)
    (hc : b.constructor_object < cx.heap.objs.length)
    (hne : b.constructor_object ≠ b.prototype) :
    Context.protoOf (BuiltinsConstructorBuilder.build cx b).1 b.constructor_object =
      some (.object cx.standard_objects.function_object.prototype) := by
  simp only [BuiltinsConstructorBuilder.build, Context.protoOf]
  rw [Heap.get_update_ne _ _ _ _ (Ne.symm hne), Heap.get_update_self,
    Heap.get_eq_getElem _ _ hc]
  simp [Object.insert_property, Object.insert, Object.set_prototype_instance]

theorem builtins_build_proto_constructor_prop (cx : Context)
    (b : BuiltinsConstructorBuilder)
    (hp : b.prototype < cx.heap.objs.length)
    (hne : b.constructor_object ≠ b.prototype) :
    Context.ownProp (BuiltinsConstructorBuilder.build cx b).1 b.prototype
        "constructor" =
      some (Property.data_descriptor (.object b.constructor_object)
        Attribute.all) := by
  simp only [BuiltinsConstructorBuilder.build, Context.ownProp]
  rw [Heap.get_update_self, Heap.get_update_ne _ _ _ _ hne,
    Heap.get_eq_getElem _ _ hp]
  cases b.inherit <;>
    simp [Object.insert_property, Object.insert, Object.set_prototype_instance,
      assocFind_insert_self]

/-- Witness for C4 at a concrete native-tagged object and type token. -/
theorem c4_downcast_ref_exact_type_witness :
    (((Object.native_object ⟨5, 77⟩).downcast_ref 5).isSome ↔
      ∃ payload, (Object.native_object ⟨5, 77⟩).data = .nativeObject payload ∧
        payload.ty = 5)
    ∧ ((Object.native_object ⟨5, 77⟩).is 5 = true ↔
        ((Object.native_object ⟨5, 77⟩).downcast_ref 5).isSome)
    ∧ (∀ payload, (Object.native_object ⟨5, 77⟩).data = .nativeObject payload →
        (Object.native_object ⟨5, 77⟩).downcast_ref payload.ty = some payload.val) :=
  c4_downcast_ref_exact_type (Object.native_object ⟨5, 77⟩) 5

/-! ## C1 — mutual constructor/prototype back-reference after `build` -/

/-- **C1.** For every `ConstructorBuilder` — of either module, so whether its
pair came from `new`'s two fresh handles or `with_standard_object`'s
pre-registered distinct pair (both give two allocated, distinct handles) —
after `build()` the constructor object's own `"prototype"` property holds
exactly the builder's prototype handle, and the prototype object's own
`"constructor"` property holds exactly the constructor handle `build()`
returns. -/
theorem c1_build_mutual_backreference (cx : Context)
    (b : ConstructorBuilder) (b2 : BuiltinsConstructorBuilder)
    (hc : b.constructor_object < cx.heap.objs.length)
    (hp : b.prototype < cx.heap.objs.length)
    (hne : b.constructor_object ≠ b.prototype)
    (hc2 : b2.constructor_object < cx.heap.objs.length)
    (hp2 : b2.prototype < cx.heap.objs.length)
    (hne2 : b2.constructor_object ≠ b2.prototype) :
    ((ConstructorBuilder.build cx b).2 = b.constructor_object
      ∧ Context.ownPropValue (ConstructorBuilder.build cx b).1
          b.constructor_object PROTOTYPE = some (.object b.prototype)
      ∧ Context.ownPropValue (ConstructorBuilder.build cx b).1 b.prototype
          "constructor" = some (.object (ConstructorBuilder.build cx b).2))
    ∧ ((BuiltinsConstructorBuilder.build cx b2).2 = b2.constructor_object
      ∧ Context.ownPropValue (BuiltinsConstructorBuilder.build cx b2).1
          b2.constructor_object PROTOTYPE = some (.object b2.prototype)
      ∧ Context.ownPropValue (BuiltinsConstructorBuilder.build cx b2).1
          b2.prototype "constructor" =
          some (.object (BuiltinsConstructorBuilder.build cx b2).2)) := by
  refine ⟨⟨build_snd cx b, ?_, ?_⟩, ⟨builtins_build_snd cx b2, ?_, ?_⟩⟩
  · simp [Context.ownPropValue, build_ctor_prototype_prop cx b hc hne,
      Property.data_descriptor]
  · simp [Context.ownPropValue, build_proto_constructor_prop cx b hp hne,
      Property.data_descriptor, build_snd]
  · simp [Context.ownPropValue, builtins_build_ctor_prototype_prop cx b2 hc2 hne2,
      Property.data_descriptor]
  · simp [Context.ownPropValue, builtins_build_proto_constructor_prop cx b2 hp2 hne2,
      Property.data_descriptor, builtins_build_snd]

/-- Witness for C1: both builders over the start-up context's RangeError and
ReferenceError standard pairs. -/
theorem c1_build_mutual_backreference_witness :
    ((ConstructorBuilder.build initialContext
        (ConstructorBuilder.with_standard_object (.other 0)
          initialContext.standard_objects.range_error_object)).2 =
      (ConstructorBuilder.with_standard_object (.other 0)
        initialContext.standard_objects.range_error_object).constructor_object
      ∧ Context.ownPropValue (ConstructorBuilder.build initialContext
          (ConstructorBuilder.with_standard_object (.other 0)
            initialContext.standard_objects.range_error_object)).1
          (ConstructorBuilder.with_standard_object (.other 0)
            initialContext.standard_objects.range_error_object).constructor_object
          PROTOTYPE =
        some (.object (ConstructorBuilder.with_standard_object (.other 0)
          initialContext.standard_objects.range_error_object).prototype)
      ∧ Context.ownPropValue (ConstructorBuilder.build initialContext
          (ConstructorBuilder.with_standard_object (.other 0)
            initialContext.standard_objects.range_error_object)).1
          (ConstructorBuilder.with_standard_object (.other 0)
            initialContext.standard_objects.range_error_object).prototype
          "constructor" =
        some (.object (ConstructorBuilder.build initialContext
          (ConstructorBuilder.with_standard_object (.other 0)
            initialContext.standard_objects.range_error_object)).2))
    ∧ ((BuiltinsConstructorBuilder.build initialContext
        (BuiltinsConstructorBuilder.with_standard_object (.other 1)
          initialContext.standard_objects.reference_error_object)).2 =
      (BuiltinsConstructorBuilder.with_standard_object (.other 1)
        initialContext.standard_objects.reference_error_object).constructor_object
      ∧ Context.ownPropValue (BuiltinsConstructorBuilder.build initialContext
          (BuiltinsConstructorBuilder.with_standard_object (.other 1)
            initialContext.standard_objects.reference_error_object)).1
          (BuiltinsConstructorBuilder.with_standard_object (.other 1)
            initialContext.standard_objects.reference_error_object).constructor_object
          PROTOTYPE =
        some (.object (BuiltinsConstructorBuilder.with_standard_object (.other 1)
          initialContext.standard_objects.reference_error_object).prototype)
      ∧ Context.ownPropValue (BuiltinsConstructorBuilder.build initialContext
          (BuiltinsConstructorBuilder.with_standard_object (.other 1)
            initialContext.standard_objects.reference_error_object)).1
          (BuiltinsConstructorBuilder.with_standard_object (.other 1)
            initialContext.standard_objects.reference_error_object).prototype
          "constructor" =
        some (.object (BuiltinsConstructorBuilder.build initialContext
          (BuiltinsConstructorBuilder.with_standard_object (.other 1)
            initialContext.standard_objects.reference_error_object)).2)) :=
  c1_build_mutual_backreference initialContext
    (ConstructorBuilder.with_standard_object (.other 0)
      initialContext.standard_objects.range_error_object)
    (BuiltinsConstructorBuilder.with_standard_object (.other 1)
      initialContext.standard_objects.reference_error_object)
    (by decide) (by decide) (by decide) (by decide) (by decide) (by decide)

/-! ## C9 — `build`'s wiring details -/

/-- **C9.** For every `ConstructorBuilder` (either module), `build()` attaches
the built prototype on the constructor object under the `"prototype"` key
with a non-enumerable attribute, sets the constructor object's own prototype
link to the global Function prototype, and attaches the `"constructor"`
back-reference on the prototype object with a writable, non-enumerable,
configurable attribute.  (In the object module the `"prototype"` key's
attribute is the permanent combination; in the builtins module both keys are
installed under `Attribute::all()`, non-enumerable per its spec-modelled
reading — see `Attribute.all`.) -/
theorem c9_build_wiring (cx : Context)
    (b : ConstructorBuilder) (b2 : BuiltinsConstructorBuilder)
    (hc : b.constructor_object < cx.heap.objs.length)
    (hp : b.prototype < cx.heap.objs.length)
    (hne : b.constructor_object ≠ b.prototype)
    (hc2 : b2.constructor_object < cx.heap.objs.length)
    (hp2 : b2.prototype < cx.heap.objs.length)
    (hne2 : b2.constructor_object ≠ b2.prototype) :
    (Context.ownProp (ConstructorBuilder.build cx b).1 b.constructor_object
        PROTOTYPE =
        some (Property.data_descriptor (.object b.prototype)
          Attribute.READONLY_NON_ENUMERABLE_PERMANENT)
      ∧ Attribute.READONLY_NON_ENUMERABLE_PERMANENT.enumerable = false
      ∧ Context.protoOf (ConstructorBuilder.build cx b).1 b.constructor_object =
          some (.object cx.standard_objects.function_object.prototype)
      ∧ Context.ownProp (ConstructorBuilder.build cx b).1 b.prototype
          "constructor" =
          some (Property.data_descriptor (.object b.constructor_object)
            Attribute.WRITABLE_NON_ENUMERABLE_CONFIGURABLE)
      ∧ Attribute.WRITABLE_NON_ENUMERABLE_CONFIGURABLE.writable = true
      ∧ Attribute.WRITABLE_NON_ENUMERABLE_CONFIGURABLE.enumerable = false
      ∧ Attribute.WRITABLE_NON_ENUMERABLE_CONFIGURABLE.configurable = true)
    ∧ (Context.ownProp (BuiltinsConstructorBuilder.build cx b2).1
          b2.constructor_object PROTOTYPE =
        some (Property.data_descriptor (.object b2.prototype) Attribute.all)
      ∧ Attribute.all.enumerable = false
      ∧ Context.protoOf (BuiltinsConstructorBuilder.build cx b2).1
          b2.constructor_object =
          some (.object cx.standard_objects.function_object.prototype)
      ∧ Context.ownProp (BuiltinsConstructorBuilder.build cx b2).1 b2.prototype
          "constructor" =
          some (Property.data_descriptor (.object b2.constructor_object)
            Attribute.all)
      ∧ Attribute.all.writable = true ∧ Attribute.all.configurable = true) := by
  exact ⟨⟨build_ctor_prototype_prop cx b hc hne, rfl,
      build_ctor_proto_link cx b hc hne,
      build_proto_constructor_prop cx b hp hne, rfl, rfl, rfl⟩,
    ⟨builtins_build_ctor_prototype_prop cx b2 hc2 hne2, rfl,
      builtins_build_ctor_proto_link cx b2 hc2 hne2,
      builtins_build_proto_constructor_prop cx b2 hp2 hne2, rfl, rfl⟩⟩

/-- Witness for C9: both builders over the start-up context's SyntaxError and
TypeError standard pairs. -/
theorem c9_build_wiring_witness :
    (Context.ownProp (ConstructorBuilder.build initialContext
        (ConstructorBuilder.with_standard_object (.other 2)
          initialContext.standard_objects.syntax_error_object)).1
        (ConstructorBuilder.with_standard_object (.other 2)
          initialContext.standard_objects.syntax_error_object).constructor_object
        PROTOTYPE =
        some (Property.data_descriptor
          (.object (ConstructorBuilder.with_standard_object (.other 2)
            initialContext.standard_objects.syntax_error_object).prototype)
          Attribute.READONLY_NON_ENUMERABLE_PERMANENT)
      ∧ Attribute.READONLY_NON_ENUMERABLE_PERMANENT.enumerable = false
      ∧ Context.protoOf (ConstructorBuilder.build initialContext
          (ConstructorBuilder.with_standard_object (.other 2)
            initialContext.standard_objects.syntax_error_object)).1
          (ConstructorBuilder.with_standard_object (.other 2)
            initialContext.standard_objects.syntax_error_object).constructor_object =
          some (.object initialContext.standard_objects.function_object.prototype)
      ∧ Context.ownProp (ConstructorBuilder.build initialContext
          (ConstructorBuilder.with_standard_object (.other 2)
            initialContext.standard_objects.syntax_error_object)).1
          (ConstructorBuilder.with_standard_object (.other 2)
            initialContext.standard_objects.syntax_error_object).prototype
          "constructor" =
          some (Property.data_descriptor
            (.object (ConstructorBuilder.with_standard_object (.other 2)
              initialContext.standard_objects.syntax_error_object).constructor_object)
            Attribute.WRITABLE_NON_ENUMERABLE_CONFIGURABLE)
      ∧ Attribute.WRITABLE_NON_ENUMERABLE_CONFIGURABLE.writable = true
      ∧ Attribute.WRITABLE_NON_ENUMERABLE_CONFIGURABLE.enumerable = false
      ∧ Attribute.WRITABLE_NON_ENUMERABLE_CONFIGURABLE.configurable = true)
    ∧ (Context.ownProp (BuiltinsConstructorBuilder.build initialContext
          (BuiltinsConstructorBuilder.with_standard_object (.other 3)
            initialContext.standard_objects.type_error_object)).1
          (BuiltinsConstructorBuilder.with_standard_object (.other 3)
            initialContext.standard_objects.type_error_object).constructor_object
          PROTOTYPE =
        some (Property.data_descriptor
          (.object (BuiltinsConstructorBuilder.with_standard_object (.other 3)
            initialContext.standard_objects.type_error_object).prototype)
          Attribute.all)
      ∧ Attribute.all.enumerable = false
      ∧ Context.protoOf (BuiltinsConstructorBuilder.build initialContext
          (BuiltinsConstructorBuilder.with_standard_object (.other 3)
            initialContext.standard_objects.type_error_object)).1
          (BuiltinsConstructorBuilder.with_standard_object (.other 3)
            initialContext.standard_objects.type_error_object).constructor_object =
          some (.object initialContext.standard_objects.function_object.prototype)
      ∧ Context.ownProp (BuiltinsConstructorBuilder.build initialContext
          (BuiltinsConstructorBuilder.with_standard_object (.other 3)
            initialContext.standard_objects.type_error_object)).1
          (BuiltinsConstructorBuilder.with_standard_object (.other 3)
            initialContext.standard_objects.type_error_object).prototype
          "constructor" =
          some (Property.data_descriptor
            (.object (BuiltinsConstructorBuilder.with_standard_object (.other 3)
              initialContext.standard_objects.type_error_object).constructor_object)
            Attribute.all)
      ∧ Attribute.all.writable = true ∧ Attribute.all.configurable = true) :=
  c9_build_wiring initialContext
    (ConstructorBuilder.with_standard_object (.other 2)
      initialContext.standard_objects.syntax_error_object)
    (BuiltinsConstructorBuilder.with_standard_object (.other 3)
      initialContext.standard_objects.type_error_object)
    (by decide) (by decide) (by decide) (by decide) (by decide) (by decide)

/-! ## C3 — `length`/`name` of installed callables -/

/-- The callable installed on `tgt` under `nm` sits at handle `fh` behind the
writable/non-enumerable/configurable slot, and carries own `"length"` /
`"name"` data properties with the permanent attribute, whose deletion fails
(the "not configurable" signal) without mutating the object. -/
def installedCallablePermanent (cx : Context) (tgt fh : Nat) (nm : String)
    (len : Nat) : Prop :=
  Context.ownProp cx tgt nm =
    some (Property.data_descriptor (.object fh)
      Attribute.WRITABLE_NON_ENUMERABLE_CONFIGURABLE)
  ∧ Context.ownProp cx fh "length" =
    some (Property.data_descriptor (.integer len)
      Attribute.READONLY_NON_ENUMERABLE_PERMANENT)
  ∧ Context.ownProp cx fh "name" =
    some (Property.data_descriptor (.string nm)
      Attribute.READONLY_NON_ENUMERABLE_PERMANENT)
  ∧ Attribute.READONLY_NON_ENUMERABLE_PERMANENT.permanent
  ∧ (∀ o, cx.heap.get fh = some o →
      o.delete (.string "length") = none ∧ o.delete (.string "name") = none)

/-- **C3, counterexample.** The claim quantifies over *every* builder's
`function`/`method`/`static_method`; but the builtins module's
`ConstructorBuilder::method` installs the callable's `"length"` and `"name"`
under `Attribute::all()` — writable and configurable (under any reading of
`all()`, which unions in the `WRITABLE` and `CONFIGURABLE` bits), hence not
permanent, and deleting them succeeds.  Concrete run: a fresh builtins
builder over the start-up context, one `method` call; the installed function
object is handle 17. -/
theorem c3_counterexample_builtins_method_not_permanent :
    Context.ownPropAttr
      (BuiltinsConstructorBuilder.method
        (BuiltinsConstructorBuilder.new initialContext (.other 0)).1
        (BuiltinsConstructorBuilder.new initialContext (.other 0)).2
        (.other 4) "toString" 0).1 17 "length" = some Attribute.all
    ∧ Context.ownPropAttr
      (BuiltinsConstructorBuilder.method
        (BuiltinsConstructorBuilder.new initialContext (.other 0)).1
        (BuiltinsConstructorBuilder.new initialContext (.other 0)).2
        (.other 4) "toString" 0).1 17 "name" = some Attribute.all
    ∧ Attribute.all.writable = true
    ∧ Attribute.all.configurable = true
    ∧ ¬ Attribute.all.permanent
    ∧ ((BuiltinsConstructorBuilder.method
        (BuiltinsConstructorBuilder.new initialContext (.other 0)).1
        (BuiltinsConstructorBuilder.new initialContext (.other 0)).2
        (.other 4) "toString" 0).1.heap.get 17).map
        (fun o => (o.delete (.string "length")).isSome) = some true
    ∧ ((BuiltinsConstructorBuilder.method
        (BuiltinsConstructorBuilder.new initialContext (.other 0)).1
        (BuiltinsConstructorBuilder.new initialContext (.other 0)).2
        (.other 4) "toString" 0).1.heap.get 17).map
        (fun o => (o.delete (.string "name")).isSome) = some true := by
  refine ⟨by decide, by decide, rfl, rfl,
    by simp [Attribute.permanent, Attribute.all], by decide, by decide⟩

/-- **C3, amended.** For every callable installed through the *object
module's* builders — `ObjectBuilder::function`, `ConstructorBuilder::method`
or `ConstructorBuilder::static_method` — the installed function object
carries own numeric `"length"` and string `"name"` properties with the
permanent (non-writable, non-configurable) attribute, so deleting them
fails; the builtins module's duplicated builders instead install both under
`Attribute::all()` and do not satisfy this (see the counterexample). -/
theorem c3_amended_object_module_permanent (cx : Context) (bo : ObjectBuilder)
    (b : ConstructorBuilder) (f : NativeFn) (nm : String) (len : Nat)
    (hbo : bo.object < cx.heap.objs.length)
    (hbp : b.prototype < cx.heap.objs.length)
    (hbc : b.constructor_object < cx.heap.objs.length) :
    installedCallablePermanent (ObjectBuilder.function cx bo f nm len).1
      bo.object cx.heap.objs.length nm len
    ∧ installedCallablePermanent (ConstructorBuilder.method cx b f nm len).1
      b.prototype cx.heap.objs.length nm len
    ∧ installedCallablePermanent
      (ConstructorBuilder.static_method cx b f nm len).1
      b.constructor_object cx.heap.objs.length nm len := by
  have main : ∀ (tgt : Nat), tgt < cx.heap.objs.length →
      installedCallablePermanent
        { cx with heap :=
            ((cx.heap.alloc
              (((Object.function (.builtIn f FunctionFlags.CALLABLE)
                  (.object cx.standard_objects.function_object.prototype)).insert_property
                    (.string "length") (.integer len)
                    Attribute.READONLY_NON_ENUMERABLE_PERMANENT).insert_property
                  (.string "name") (.string nm)
                  Attribute.READONLY_NON_ENUMERABLE_PERMANENT)).1.update tgt
              (fun o => o.insert_property (.string nm)
                (.object cx.heap.objs.length)
                Attribute.WRITABLE_NON_ENUMERABLE_CONFIGURABLE)) }
        tgt cx.heap.objs.length nm len := by
    intro tgt htgt
    refine ⟨?_, ?_, ?_, by exact ⟨rfl, rfl⟩, ?_⟩
    · simp only [Context.ownProp, Heap.alloc]
      rw [Heap.get_update_self, Heap.get_append_old _ _ _ htgt,
        Heap.get_eq_getElem _ _ htgt]
      simp [Object.insert_property, Object.insert, Property.data_descriptor,
        assocFind_insert_self]
    · simp only [Context.ownProp, Heap.alloc]
      rw [Heap.get_update_ne _ _ _ _ (Nat.ne_of_lt htgt), Heap.get_append_self]
      simp [Object.insert_property, Object.insert, Object.function,
        Property.data_descriptor, assocFind, assocInsert]
    · simp only [Context.ownProp, Heap.alloc]
      rw [Heap.get_update_ne _ _ _ _ (Nat.ne_of_lt htgt), Heap.get_append_self]
      simp [Object.insert_property, Object.insert, Object.function,
        Property.data_descriptor, assocFind, assocInsert]
    · intro o ho
      simp only [Heap.alloc] at ho
      rw [Heap.get_update_ne _ _ _ _ (Nat.ne_of_lt htgt),
        Heap.get_append_self] at ho
      cases ho
      constructor <;>
        simp [Object.delete, Object.get_own, Object.insert_property,
          Object.insert, Object.function, Property.data_descriptor,
          assocFind, assocInsert, Attribute.READONLY_NON_ENUMERABLE_PERMANENT]
  exact ⟨main bo.object hbo, main b.prototype hbp, main b.constructor_object hbc⟩

/-- Witness for the amended C3 at a concrete builder state and method name. -/
theorem c3_amended_object_module_permanent_witness :
    installedCallablePermanent
      (ObjectBuilder.function initialContext ⟨14⟩ (.other 5) "floor" 1).1
      14 initialContext.heap.objs.length "floor" 1
    ∧ installedCallablePermanent
      (ConstructorBuilder.method initialContext
        (ConstructorBuilder.with_standard_object (.other 6)
          initialContext.standard_objects.range_error_object)
        (.other 5) "floor" 1).1
      6 initialContext.heap.objs.length "floor" 1
    ∧ installedCallablePermanent
      (ConstructorBuilder.static_method initialContext
        (ConstructorBuilder.with_standard_object (.other 6)
          initialContext.standard_objects.range_error_object)
        (.other 5) "floor" 1).1
      7 initialContext.heap.objs.length "floor" 1 :=
  c3_amended_object_module_permanent initialContext ⟨14⟩
    (ConstructorBuilder.with_standard_object (.other 6)
      initialContext.standard_objects.range_error_object)
    (.other 5) "floor" 1 (by decide) (by decide) (by decide)

/-! ## C5 / C10 — the error constructors' throw-by-return convention -/

/-- The three error constructors have textually identical bodies. -/
theorem constructor_bodies_equal :
    ReferenceError.constructor = RangeError.constructor
    ∧ SyntaxError.constructor = RangeError.constructor :=
  ⟨rfl, rfl⟩

/-- The optional message argument's string coercion succeeds (vacuously when
there is no argument). -/
def coercesOk (args : List Value) : Bool :=
  match args.head? with
  | none => true
  | some m =>
    match m.to_string_coerce with
    | .ok _ => true
    | .error _ => false

/-- **C5.** For every error built-in constructor (RangeError, ReferenceError,
SyntaxError), every object `this` and every argument list whose optional
message coerces successfully: the constructor retags `this`'s internal data
slot to `Error` and returns the `Err` variant carrying `this` itself; and on
*every* input (coercion failures included) the `Ok` variant is never
returned. -/
theorem c5_construct_is_throw (H : Heap) (h : Nat) (args : List Value)
    (hh : h < H.objs.length) (hc : coercesOk args = true) :
    ((RangeError.constructor H (.object h) args).2 = .error (.object h)
      ∧ ((RangeError.constructor H (.object h) args).1.get h).map Object.data =
          some .error)
    ∧ ((ReferenceError.constructor H (.object h) args).2 = .error (.object h)
      ∧ ((ReferenceError.constructor H (.object h) args).1.get h).map Object.data =
          some .error)
    ∧ ((SyntaxError.constructor H (.object h) args).2 = .error (.object h)
      ∧ ((SyntaxError.constructor H (.object h) args).1.get h).map Object.data =
          some .error)
    ∧ (∀ (this : Value) (args2 : List Value),
        (∃ e, (RangeError.constructor H this args2).2 = .error e)
        ∧ (∃ e, (ReferenceError.constructor H this args2).2 = .error e)
        ∧ (∃ e, (SyntaxError.constructor H this args2).2 = .error e)) := by
  obtain ⟨eref, esyn⟩ := constructor_bodies_equal
  rw [eref, esyn]
  have base2 : (RangeError.constructor H (.object h) args).2 = .error (.object h) := by
    unfold RangeError.constructor
    cases hargs : args.head? with
    | none => simp
    | some m =>
      cases hm : m.to_string_coerce with
      | error e => simp [coercesOk, hargs, hm] at hc
      | ok s => simp [hm]
  have baseH : ((RangeError.constructor H (.object h) args).1.get h).map
      Object.data = some .error := by
    unfold RangeError.constructor
    cases hargs : args.head? with
    | none =>
      simp only [Value.set_data]
      rw [Heap.get_update_self, Heap.get_eq_getElem _ _ hh]
      rfl
    | some m =>
      cases hm : m.to_string_coerce with
      | error e => simp [coercesOk, hargs, hm] at hc
      | ok s =>
        simp only [hm, Value.set_data, Value.set_field]
        rw [Heap.get_update_self, Heap.get_update_self]
        rw [Heap.get_eq_getElem _ _ hh]
        rfl
  have never : ∀ (this : Value) (args2 : List Value),
      ∃ e, (RangeError.constructor H this args2).2 = .error e := by
    intro this args2
    unfold RangeError.constructor
    cases hargs : args2.head? with
    | none => exact ⟨this, rfl⟩
    | some m =>
      cases hm : m.to_string_coerce with
      | error e => exact ⟨e, by simp [hm]⟩
      | ok s => exact ⟨this, by simp [hm]⟩
  exact ⟨⟨base2, baseH⟩, ⟨base2, baseH⟩, ⟨base2, baseH⟩,
    fun this args2 => ⟨never this args2, never this args2, never this args2⟩⟩

/-- Witness for C5: `new RangeError("x")`-shaped call on handle 0 of the
start-up heap. -/
theorem c5_construct_is_throw_witness :
    ((RangeError.constructor initialContext.heap (.object 0) [.string "x"]).2 =
        .error (.object 0)
      ∧ ((RangeError.constructor initialContext.heap (.object 0)
          [.string "x"]).1.get 0).map Object.data = some .error)
    ∧ ((ReferenceError.constructor initialContext.heap (.object 0)
          [.string "x"]).2 = .error (.object 0)
      ∧ ((ReferenceError.constructor initialContext.heap (.object 0)
          [.string "x"]).1.get 0).map Object.data = some .error)
    ∧ ((SyntaxError.constructor initialContext.heap (.object 0)
          [.string "x"]).2 = .error (.object 0)
      ∧ ((SyntaxError.constructor initialContext.heap (.object 0)
          [.string "x"]).1.get 0).map Object.data = some .error)
    ∧ (∀ (this : Value) (args2 : List Value),
        (∃ e, (RangeError.constructor initialContext.heap this args2).2 = .error e)
        ∧ (∃ e, (ReferenceError.constructor initialContext.heap this args2).2 =
            .error e)
        ∧ (∃ e, (SyntaxError.constructor initialContext.heap this args2).2 =
            .error e)) :=
  c5_construct_is_throw initialContext.heap 0 [.string "x"] (by decide) (by decide)

/-- **C10.** For every error built-in constructor: when the message
argument's string coercion fails, the constructor propagates that error and
returns the heap verbatim — no `"message"` write, no retag of `this`'s data
slot; the state is entirely unchanged. -/
theorem c10_coercion_failure_leaves_state (H : Heap) (this m e : Value)
    (rest : List Value) (hm : m.to_string_coerce = .error e) :
    RangeError.constructor H this (m :: rest) = (H, .error e)
    ∧ ReferenceError.constructor H this (m :: rest) = (H, .error e)
    ∧ SyntaxError.constructor H this (m :: rest) = (H, .error e) := by
  obtain ⟨eref, esyn⟩ := constructor_bodies_equal
  rw [eref, esyn]
  have base : RangeError.constructor H this (m :: rest) = (H, .error e) := by
    simp [RangeError.constructor, hm]
  exact ⟨base, base, base⟩

/-- Witness for C10: a symbol message argument, whose coercion throws. -/
theorem c10_coercion_failure_leaves_state_witness :
    RangeError.constructor initialContext.heap (.object 0) [.symbol 0] =
      (initialContext.heap,
        .error (.string "TypeError: can not convert symbol to string"))
    ∧ ReferenceError.constructor initialContext.heap (.object 0) [.symbol 0] =
      (initialContext.heap,
        .error (.string "TypeError: can not convert symbol to string"))
    ∧ SyntaxError.constructor initialContext.heap (.object 0) [.symbol 0] =
      (initialContext.heap,
        .error (.string "TypeError: can not convert symbol to string")) :=
  c10_coercion_failure_leaves_state initialContext.heap (.object 0) (.symbol 0)
    (.string "TypeError: can not convert symbol to string") [] rfl

/-! ## C2 — the prototype link of `RangeError.prototype` after initialization -/

/-- **C2, counterexample.** After the aggregate initializer has run,
`RangeError` is bound in the global object and its `"prototype"` property is
the RangeError prototype handle; but that prototype object's own prototype
link is the *Object* prototype handle, which is a different handle than the
Error prototype (`Error.prototype`, reachable both as the standard pair's
stable identity and through the built `Error` constructor's `"prototype"`
property).  So `Object.getPrototypeOf(RangeError.prototype)` is not
`Error.prototype`. -/
theorem c2_counterexample_range_error_proto_not_error_proto :
    Context.ownPropValue postInitContext globalH "RangeError" =
      some (.object rangeErrorCtorH)
    ∧ Context.ownPropValue postInitContext rangeErrorCtorH PROTOTYPE =
      some (.object rangeErrorProtoH)
    ∧ Context.ownPropValue postInitContext globalH "Error" = some (.object 5)
    ∧ Context.ownPropValue postInitContext 5 PROTOTYPE = some (.object errorProtoH)
    ∧ Context.protoOf postInitContext rangeErrorProtoH =
      some (.object objectProtoH)
    ∧ objectProtoH ≠ errorProtoH := by
  refine ⟨by decide, by decide, by decide, by decide, by decide, by decide⟩

/-- **C2, amended.** After the aggregate initializer has run,
`Object.getPrototypeOf(RangeError.prototype)` is the *Object* prototype
object — the default `inherit` target of `ConstructorBuilder::build`, taken
because `RangeError::init` never calls `inherit` — not the Error
prototype. -/
theorem c2_amended_range_error_proto_is_object_proto :
    Context.protoOf postInitContext rangeErrorProtoH =
      some (.object postInitContext.standard_objects.object_object.prototype) := by
  decide

/-! ## C6 / C7 — end-to-end `new RangeError` behavior -/

/-- **C6.** After full initialization, `new RangeError("bad")` returns (on
the error channel) a fresh object whose `name` reads `"RangeError"` (from
the prototype), whose `message` reads `"bad"` (own property), and on which
the installed `toString` method — the `rangeErrorToStringFn` callable that
initialization installed on `RangeError.prototype` under `"toString"` —
returns `"RangeError: bad"`. -/
theorem c6_new_range_error_bad :
    (rangeErrorNew [.string "bad"]).2 = .error (.object rangeErrorNewThisH)
    ∧ Value.get_field (rangeErrorNew [.string "bad"]).1.heap
        (.object rangeErrorNewThisH) "name" = .string "RangeError"
    ∧ Value.get_field (rangeErrorNew [.string "bad"]).1.heap
        (.object rangeErrorNewThisH) "message" = .string "bad"
    ∧ Context.ownPropValue postInitContext rangeErrorProtoH "toString" =
        some (.object 16)
    ∧ (postInitContext.heap.get 16).map Object.data =
        some (.function (.builtIn .rangeErrorToStringFn FunctionFlags.CALLABLE))
    ∧ RangeError.to_string (rangeErrorNew [.string "bad"]).1.heap
        (.object rangeErrorNewThisH) [] = .ok (.string "RangeError: bad") := by
  refine ⟨by decide, by decide, by decide, by decide, by decide, by decide⟩

/-- **C7.** After full initialization, `new RangeError()` leaves the fresh
object without an own `"message"` property; reading `message` falls through
to the empty-string default installed on `RangeError.prototype`, and the
installed `toString` returns `"RangeError: "`. -/
theorem c7_new_range_error_no_args :
    Context.ownProp (rangeErrorNew []).1 rangeErrorNewThisH "message" = none
    ∧ Value.get_field (rangeErrorNew []).1.heap (.object rangeErrorNewThisH)
        "message" = .string ""
    ∧ Context.ownProp postInitContext rangeErrorProtoH "message" =
        some (Property.data_descriptor (.string "")
          Attribute.WRITABLE_NON_ENUMERABLE_CONFIGURABLE)
    ∧ RangeError.to_string (rangeErrorNew []).1.heap
        (.object rangeErrorNewThisH) [] = .ok (.string "RangeError: ") := by
  refine ⟨by decide, by decide, by decide, by decide⟩

/-! ## C8 — the default global-binding attribute -/

/-- **C8.** The `BuiltIn` types of the excerpt that do not override
`attribute()` (RangeError and ReferenceError; SyntaxError overrides it) are
bound into the global object under the trait default — writable,
non-enumerable, configurable. -/
theorem c8_default_binding_attribute :
    RangeError.attribute_value = BuiltIn.default_attribute
    ∧ ReferenceError.attribute_value = BuiltIn.default_attribute
    ∧ BuiltIn.default_attribute = Attribute.all
    ∧ BuiltIn.default_attribute.writable = true
    ∧ BuiltIn.default_attribute.enumerable = false
    ∧ BuiltIn.default_attribute.configurable = true
    ∧ Context.ownPropAttr postInitContext globalH "RangeError" =
        some BuiltIn.default_attribute
    ∧ Context.ownPropAttr postInitContext globalH "ReferenceError" =
        some BuiltIn.default_attribute := by
  refine ⟨rfl, rfl, rfl, rfl, rfl, rfl, by decide, by decide⟩

end Boa
